import Mathlib

/-!
Verification of the job-orchestration backend of `digital_twin_fashion`
(`backend/services/up2you_runner.py`, `backend/config.py`, `backend/models.py`)
against its natural-language specification.

The Python source is shallowly embedded:
* `PyPath` models `pathlib.PurePosixPath` values (an absolute flag plus the
  list of non-empty path components); `parsePath` models the `Path(value)`
  constructor, `PyPath.div` models the `/` join operator and
  `PyPath.render` models `str(path)`.
* `pyOrStr` models the Python expression `x or default` on an
  `Optional[str]`, where both `None` and the empty string are falsy.
* `Settings`, `JobRequest`, `JobStatus`, `JobState` mirror the classes of
  `config.py` and `models.py`; timestamps are abstract `Nat` ticks.
* `build_command` mirrors `JobManager._build_command` line by line.
* `run_job` mirrors `JobManager._run_job`: the outcomes of its effectful
  steps (creating the log directory, opening the log file, spawning and
  waiting on the process) are supplied by a `RunEnv` oracle, and the
  function returns the successive stored versions of the job's record, or
  `Except.error` when an exception escapes the supervisor thread.
* `PyStore` models the Python object heap behind `JobManager._jobs`: the
  dict maps a job id to a *reference* into the heap, `get_status` returns
  that reference (Python `dict.get` returns the stored object itself, not
  a copy), and `update_in_place` mutates the referenced cell, mirroring
  the in-place attribute assignments performed under the lock.
-/

namespace DigitalTwin

/-- States of `JobState` in `backend/models.py`. -/
inductive JobState where
  | queued
  | running
  | succeeded
  | failed
deriving DecidableEq, Repr, BEq

/-- Splits a character list at `/` separators (used to model how
`pathlib` splits a path string into parts). -/
def splitSlash : List Char → List Char → List (List Char)
  | [], acc => [acc.reverse]
  | c :: t, acc => if c = '/' then acc.reverse :: splitSlash t [] else splitSlash t (c :: acc)

/-- Model of a `pathlib.PurePosixPath` value: whether the path is
absolute, and its non-empty components. -/
structure PyPath where
  isAbs : Bool
  comps : List String
deriving DecidableEq, Repr

/-- Model of the `Path(value)` constructor: the path is absolute when the
string starts with `/`; components are the non-empty, non-`.` segments. -/
def parsePath (s : String) : PyPath :=
  let abs : Bool := match s.data with
    | '/' :: _ => true
    | _ => false
  let segs := (splitSlash s.data []).map (fun cs => String.mk cs)
  ⟨abs, segs.filter (fun c => c ≠ "" && c ≠ ".")⟩

/-- Model of `pathlib`'s `/` join: an absolute right operand replaces the
left one; a relative right operand is appended under the left one. -/
def PyPath.div (a b : PyPath) : PyPath :=
  if b.isAbs then b else ⟨a.isAbs, a.comps ++ b.comps⟩

/-- Joins components with `/` (helper for `PyPath.render`). -/
def joinSlash : List String → String
  | [] => ""
  | [c] => c
  | c :: t => c ++ "/" ++ joinSlash t

/-- Model of `str(path)` on a `PurePosixPath`. -/
def PyPath.render (p : PyPath) : String :=
  match p.isAbs, p.comps with
  | false, [] => "."
  | true, [] => "/"
  | abs, cs => (if abs then "/" else "") ++ joinSlash cs

/-- Model of the Python expression `x or default` on an `Optional[str]`:
`None` and the empty string are falsy and fall through to the default. -/
def pyOrStr (x : Option String) (default : String) : String :=
  match x with
  | none => default
  | some s => if s = "" then default else s

/-- Mirror of `Settings` in `backend/config.py` (the configured values,
after the constructor's environment-variable fallbacks have been
applied). -/
structure Settings where
  up2you_repo_path : PyPath
  python_executable : String
  default_inference_script : String
  default_base_model_path : String
  default_segment_model_name : String
deriving DecidableEq, Repr

/-- Mirror of `Settings.resolve_path`: an absolute candidate is returned
unchanged; a relative one is joined under `up2you_repo_path`. -/
def Settings.resolve_path (st : Settings) (value : String) : PyPath :=
  let candidate := parsePath value
  if candidate.isAbs then candidate else st.up2you_repo_path.div candidate

/-- Mirror of `Settings.inference_script_path`: `script_name or
default_inference_script`, resolved. -/
def Settings.inference_script_path (st : Settings) (script_name : Option String) : PyPath :=
  st.resolve_path (pyOrStr script_name st.default_inference_script)

/-- The `Settings()` singleton of `config.py` with every environment
variable absent, i.e. the literal defaults of the constructor. -/
def defaultSettings : Settings :=
  { up2you_repo_path := parsePath "/opt/UP2You"
    python_executable := "python"
    default_inference_script := "inference_low_gpu.py"
    default_base_model_path := "stabilityai/stable-diffusion-2-1-base"
    default_segment_model_name := "ZhengPeng7/BiRefNet" }

/-- Mirror of `JobRequest` in `backend/models.py`. -/
structure JobRequest where
  data_dir : String
  output_dir : String
  base_model_path : Option String := none
  segment_model_name : Option String := none
  inference_script : Option String := none
  extra_args : List String := []
deriving DecidableEq, Repr

/-- Mirror of `JobStatus` in `backend/models.py`; timestamps are abstract
`Nat` ticks. -/
structure JobStatus where
  job_id : String
  state : JobState
  command : List String
  created_at : Nat
  started_at : Option Nat := none
  completed_at : Option Nat := none
  exit_code : Option Int := none
  log_path : Option String := none
  message : Option String := none
deriving DecidableEq, Repr

/-- Mirror of `JobCreatedResponse` in `backend/models.py`. -/
structure JobCreatedResponse where
  job_id : String
  state : JobState
  command : List String
  created_at : Nat
deriving DecidableEq, Repr

/-- Mirror of `JobManager._build_command`, following the source's
sequence of `extend` calls (including the truthiness test on
`extra_args`). -/
def build_command (st : Settings) (payload : JobRequest) : List String :=
  let script_path := st.inference_script_path payload.inference_script
  let command : List String := [st.python_executable, script_path.render]
  let command := command ++ ["--data_dir", (st.resolve_path payload.data_dir).render]
  let command := command ++ ["--output_dir", (st.resolve_path payload.output_dir).render]
  let base_model := pyOrStr payload.base_model_path st.default_base_model_path
  let command := command ++ ["--base_model_path", base_model]
  let segment_model := pyOrStr payload.segment_model_name st.default_segment_model_name
  let command := command ++ ["--segment_model_name", segment_model]
  if payload.extra_args = [] then command else command ++ payload.extra_args

/-- Normal form of `build_command`: the fixed ten-element flag prefix
followed by the extra arguments. Shared by several claim proofs. -/
theorem build_command_eq (st : Settings) (payload : JobRequest) :
    build_command st payload =
      [st.python_executable,
       (st.inference_script_path payload.inference_script).render,
       "--data_dir", (st.resolve_path payload.data_dir).render,
       "--output_dir", (st.resolve_path payload.output_dir).render,
       "--base_model_path", pyOrStr payload.base_model_path st.default_base_model_path,
       "--segment_model_name", pyOrStr payload.segment_model_name st.default_segment_model_name]
      ++ payload.extra_args := by
  unfold build_command
  by_cases h : payload.extra_args = [] <;> simp [h]

/-- C1: the built command is exactly the ordered vector
`[executable, script_path, "--data_dir", resolved(data_dir),
"--output_dir", resolved(output_dir), "--base_model_path", base_model,
"--segment_model_name", segment_model]` followed by the request's
`extra_args` appended verbatim and in order; the equality of lists rules
out any other element or any reordering. -/
theorem c1_build_command_exact_vector (st : Settings) (payload : JobRequest) :
    build_command st payload =
      [st.python_executable,
       (st.inference_script_path payload.inference_script).render,
       "--data_dir", (st.resolve_path payload.data_dir).render,
       "--output_dir", (st.resolve_path payload.output_dir).render,
       "--base_model_path", pyOrStr payload.base_model_path st.default_base_model_path,
       "--segment_model_name", pyOrStr payload.segment_model_name st.default_segment_model_name]
      ++ payload.extra_args :=
  build_command_eq st payload

/-- Outcome of the `subprocess.Popen(...)` / `process.wait()` pair inside
the supervisor: either a normal exit code, or a raised exception. -/
inductive SpawnResult where
  | ok (exit_code : Int)
  | raised (msg : String)
deriving DecidableEq, Repr

/-- Oracle for the effectful steps of `JobManager._run_job`: whether
`log_path.parent.mkdir(...)` raises, whether `log_path.open("w", ...)`
raises, and what spawning plus waiting on the process yields. -/
structure RunEnv where
  mkdirFails : Option String
  openFails : Option String
  spawn : SpawnResult
deriving DecidableEq, Repr

/-- The log path computed by `_run_job`:
`resolve_path(output_dir) / f"{job_id}.log"`. -/
def logPath (st : Settings) (job_id : String) (payload : JobRequest) : PyPath :=
  (st.resolve_path payload.output_dir).div (parsePath (job_id ++ ".log"))

/-- The first locked update of `_run_job`: set `state = RUNNING`,
`started_at`, `log_path` on the stored record. -/
def running_update (st : Settings) (t1 : Nat) (job_id : String) (payload : JobRequest)
    (rec : JobStatus) : JobStatus :=
  { rec with
      state := JobState.running
      started_at := some t1
      log_path := some (logPath st job_id payload).render }

/-- The `(exit_code, message)` pair the supervisor computes from the
try/except/else block: an exception from opening the log file or from
spawning/waiting is caught and yields `exit_code = -1` with a crash
message; a normal exit yields the code and the fixed success or failure
string. -/
def outcome (env : RunEnv) : Int × String :=
  match env.openFails with
  | some m => (-1, "Job crashed with error: " ++ m)
  | none =>
    match env.spawn with
    | SpawnResult.raised m => (-1, "Job crashed with error: " ++ m)
    | SpawnResult.ok c => (c, if c = 0 then "Job finished successfully" else "Job failed")

/-- The final locked update of `_run_job`: classify by exit code and set
the terminal fields. -/
def final_update (env : RunEnv) (t2 : Nat) (rec : JobStatus) : JobStatus :=
  { rec with
      state := if (outcome env).1 = 0 then JobState.succeeded else JobState.failed
      completed_at := some t2
      exit_code := some (outcome env).1
      message := some (outcome env).2 }

/-- Mirror of `JobManager._run_job` acting on this job's stored record.
`log_path.parent.mkdir(...)` runs *before* the `try` block and before the
RUNNING transition, so a failure there propagates out of the thread
(`Except.error`) with the record untouched. Otherwise the function
returns the successive stored versions of the record: the RUNNING version
followed by the terminal version. -/
def run_job (env : RunEnv) (st : Settings) (t1 t2 : Nat) (job_id : String)
    (payload : JobRequest) (rec : JobStatus) : Except String (List JobStatus) :=
  match env.mkdirFails with
  | some m => Except.error m
  | none =>
    let r1 := running_update st t1 job_id payload rec
    Except.ok [r1, final_update env t2 r1]

/-- The record `create_job` inserts at submission time. -/
def initial_record (job_id : String) (command : List String) (t0 : Nat) : JobStatus :=
  { job_id := job_id
    state := JobState.queued
    command := command
    created_at := t0 }

/-- All stored versions of one job's record, in order: the QUEUED record
inserted by `create_job`, followed by the versions written by its
supervisor (none of them when the escaping `mkdir` exception kills the
thread first). -/
def jobTrace (env : RunEnv) (st : Settings) (t0 t1 t2 : Nat) (job_id : String)
    (payload : JobRequest) : List JobStatus :=
  let rec0 := initial_record job_id (build_command st payload) t0
  match run_job env st t1 t2 job_id payload rec0 with
  | Except.error _ => [rec0]
  | Except.ok l => rec0 :: l

/-- A run environment in which every effectful step succeeds and the
process exits cleanly. -/
def envOk : RunEnv := ⟨none, none, SpawnResult.ok 0⟩

/-- A run environment in which creating the log directory raises. -/
def envMkdirFail : RunEnv := ⟨some "PermissionError(13)", none, SpawnResult.ok 0⟩

/-- A run environment in which the process exits with code 5. -/
def envExit5 : RunEnv := ⟨none, none, SpawnResult.ok 5⟩

/-- A fixed concrete request used by concrete-input theorems. -/
def req0 : JobRequest := { data_dir := "photos", output_dir := "out" }

/-- A run environment in which spawning the process raises (e.g. the
executable is missing). -/
def envRaise : RunEnv := ⟨none, none, SpawnResult.raised "FileNotFoundError(2)"⟩

/-- C2, counterexample: when `log_path.parent.mkdir(...)` raises — it
runs *before* the `try` block of `_run_job` — the exception escapes the
supervisor thread (`Except.error`) and the job's only stored record still
has `state = queued`: it is never recorded as Failed with
`exit_code = -1` and never reaches a terminal state. -/
theorem c2_counterexample_mkdir_escapes :
    run_job envMkdirFail defaultSettings 1 2 "job-1" req0
        (initial_record "job-1" (build_command defaultSettings req0) 0)
      = Except.error "PermissionError(13)" ∧
    jobTrace envMkdirFail defaultSettings 0 1 2 "job-1" req0 =
      [initial_record "job-1" (build_command defaultSettings req0) 0] ∧
    (initial_record "job-1" (build_command defaultSettings req0) 0).state = JobState.queued :=
  ⟨rfl, rfl, rfl⟩

/-- C2, amended: provided directory creation does not raise, every other
failure (opening the log file, spawning, waiting) is contained: the
supervisor returns normally, the record reaches a terminal state, and a
caught exception is recorded as Failed with `exit_code = -1` and a
diagnostic message. (A directory-creation failure, by contrast, escapes
the thread and leaves the record Queued, as the counterexample shows.) -/
theorem c2_amended_containment (env : RunEnv) (st : Settings) (t1 t2 : Nat)
    (job_id : String) (payload : JobRequest) (rec : JobStatus)
    (hmk : env.mkdirFails = none) :
    ∃ r1 r2, run_job env st t1 t2 job_id payload rec = Except.ok [r1, r2] ∧
      (r2.state = JobState.succeeded ∨ r2.state = JobState.failed) ∧
      r2.exit_code = some (outcome env).1 ∧
      ((env.openFails ≠ none ∨ ∃ m, env.spawn = SpawnResult.raised m) →
        r2.state = JobState.failed ∧ r2.exit_code = some (-1) ∧
        ∃ m, r2.message = some ("Job crashed with error: " ++ m)) := by
  refine ⟨running_update st t1 job_id payload rec,
    final_update env t2 (running_update st t1 job_id payload rec), ?_, ?_, rfl, ?_⟩
  · unfold run_job
    rw [hmk]
  · by_cases h : (outcome env).1 = 0
    · left
      simp [final_update, h]
    · right
      simp [final_update, h]
  · intro hfail
    have hout : ∃ m, outcome env = (-1, "Job crashed with error: " ++ m) := by
      cases ho : env.openFails with
      | some m => exact ⟨m, by simp [outcome, ho]⟩
      | none =>
        cases hs : env.spawn with
        | raised m => exact ⟨m, by simp [outcome, ho, hs]⟩
        | ok c =>
          rcases hfail with h | ⟨m, hm⟩
          · exact absurd ho h
          · rw [hs] at hm
            exact absurd hm (by simp)
    obtain ⟨m, hm⟩ := hout
    refine ⟨?_, ?_, m, ?_⟩ <;> simp [final_update, hm]

/-- C2, witness for the amended theorem at a concrete input: a spawn
failure is contained and recorded as Failed with `exit_code = -1`. -/
theorem c2_amended_witness :
    ∃ r1 r2, run_job envRaise defaultSettings 1 2 "job-2" req0
        (initial_record "job-2" (build_command defaultSettings req0) 0) = Except.ok [r1, r2] ∧
      r2.state = JobState.failed ∧ r2.exit_code = some (-1) := by
  obtain ⟨r1, r2, h, _, _, hf⟩ := c2_amended_containment envRaise defaultSettings 1 2 "job-2"
    req0 (initial_record "job-2" (build_command defaultSettings req0) 0) rfl
  obtain ⟨hst, hec, _⟩ := hf (Or.inr ⟨"FileNotFoundError(2)", rfl⟩)
  exact ⟨r1, r2, h, hst, hec⟩

/-- Substring test on character lists (used to formalise "the message
includes the exit code"). -/
def hasSub (needle : List Char) : List Char → Bool
  | [] => needle.isEmpty
  | c :: t => needle.isPrefixOf (c :: t) || hasSub needle t

/-- Whether the decimal rendering of `c` occurs inside `msg`. -/
def msgIncludesInt (msg : String) (c : Int) : Bool :=
  hasSub (toString c).data msg.data

/-- C5, counterexample: a process exiting with code 5 is classified
Failed with `exit_code = 5`, but the failure message is the fixed string
`"Job failed"`, which does not include the code. -/
theorem c5_counterexample_message_lacks_code :
    ((jobTrace envExit5 defaultSettings 0 1 2 "job-5" req0).getLast?).map
        (fun r => (r.state, r.exit_code, r.message))
      = some (JobState.failed, some 5, some "Job failed") ∧
    msgIncludesInt "Job failed" 5 = false :=
  ⟨rfl, rfl⟩

/-- C5, amended: when the process terminates with an exit code, exit
code 0 is classified Succeeded with the success message, and any other
exit code is classified Failed with `exit_code` equal to the actual code
and the fixed failure message `"Job failed"` (which does not mention the
code). -/
theorem c5_amended_exit_classification (env : RunEnv) (st : Settings) (t1 t2 : Nat)
    (job_id : String) (payload : JobRequest) (rec : JobStatus) (c : Int)
    (hmk : env.mkdirFails = none) (hop : env.openFails = none)
    (hsp : env.spawn = SpawnResult.ok c) :
    ∃ r1 r2, run_job env st t1 t2 job_id payload rec = Except.ok [r1, r2] ∧
      r2.exit_code = some c ∧
      (c = 0 → r2.state = JobState.succeeded ∧ r2.message = some "Job finished successfully") ∧
      (c ≠ 0 → r2.state = JobState.failed ∧ r2.message = some "Job failed") := by
  have hout : outcome env = (c, if c = 0 then "Job finished successfully" else "Job failed") := by
    simp [outcome, hop, hsp]
  refine ⟨running_update st t1 job_id payload rec,
    final_update env t2 (running_update st t1 job_id payload rec), ?_, ?_, ?_, ?_⟩
  · unfold run_job
    rw [hmk]
  · simp [final_update, hout]
  · intro h0
    simp [final_update, hout, h0]
  · intro hne
    simp [final_update, hout, hne]

/-- C5, witness for the amended theorem at a concrete input: exit code 0
yields Succeeded with the success message. -/
theorem c5_amended_witness :
    ∃ r1 r2, run_job envOk defaultSettings 1 2 "job-0" req0
        (initial_record "job-0" (build_command defaultSettings req0) 0) = Except.ok [r1, r2] ∧
      r2.exit_code = some 0 ∧ r2.state = JobState.succeeded ∧
      r2.message = some "Job finished successfully" := by
  obtain ⟨r1, r2, h, hc, h0, _⟩ := c5_amended_exit_classification envOk defaultSettings 1 2
    "job-0" req0 (initial_record "job-0" (build_command defaultSettings req0) 0) 0 rfl rfl rfl
  obtain ⟨hs, hm⟩ := h0 rfl
  exact ⟨r1, r2, h, hc, hs, hm⟩

/-- The legal single-step transitions of a job record: Queued → Running,
or Running → a terminal state. A terminal state has no outgoing step. -/
def stepOk (a b : JobStatus) : Prop :=
  (a.state = JobState.queued ∧ b.state = JobState.running) ∨
  (a.state = JobState.running ∧ (b.state = JobState.succeeded ∨ b.state = JobState.failed))

/-- C6: along every possible trace of stored versions of a job's record
(creation, then the supervisor's updates under any oracle), adjacent
versions step only Queued → Running or Running → {Succeeded, Failed}.
Since `jobTrace` lists *every* stored version and `stepOk` has no step
out of a terminal state, this also shows no update reverts or skips
Running and no record is modified after reaching a terminal state. -/
theorem c6_monotonic_lifecycle (env : RunEnv) (st : Settings) (t0 t1 t2 : Nat)
    (job_id : String) (payload : JobRequest) :
    List.Chain' stepOk (jobTrace env st t0 t1 t2 job_id payload) := by
  cases hmk : env.mkdirFails with
  | some m => simp [jobTrace, run_job, hmk]
  | none =>
    simp only [jobTrace, run_job, hmk]
    refine List.chain'_cons.mpr ⟨Or.inl ⟨rfl, rfl⟩,
      List.chain'_cons.mpr ⟨Or.inr ⟨rfl, ?_⟩, List.chain'_singleton _⟩⟩
    by_cases h : (outcome env).1 = 0
    · left
      simp [final_update, h]
    · right
      simp [final_update, h]

/-- C7: in every stored version of a job's record, under any oracle,
`exit_code` is present exactly when the state is Succeeded or Failed
(and absent exactly when the state is Queued or Running). -/
theorem c7_exit_code_iff_terminal (env : RunEnv) (st : Settings) (t0 t1 t2 : Nat)
    (job_id : String) (payload : JobRequest) :
    (jobTrace env st t0 t1 t2 job_id payload).all
      (fun r => r.exit_code.isSome ==
        (r.state == JobState.succeeded || r.state == JobState.failed)) = true := by
  cases hmk : env.mkdirFails with
  | some m =>
    simp [jobTrace, run_job, hmk, initial_record]
    decide
  | none =>
    simp only [jobTrace, run_job, hmk, List.all_cons, List.all_nil]
    by_cases h : (outcome env).1 = 0 <;>
      · simp [initial_record, running_update, final_update, h]
        decide

/-- Model of the Python object heap behind `JobManager._jobs`: `cells`
is the heap of `JobStatus` objects (a reference is an index into it) and
`jobsIndex` is the dict, mapping a job id to a reference. Python dicts
store object references, so the dict entry and any value obtained from
it alias the same heap cell. -/
structure PyStore where
  cells : List JobStatus
  jobsIndex : List (String × Nat)
deriving DecidableEq, Repr

/-- The reference stored in the dict for `id`, if any. -/
def lookupRef (s : PyStore) (id : String) : Option Nat :=
  (s.jobsIndex.find? (fun kv => kv.1 == id)).map (fun kv => kv.2)

/-- Mirror of `JobManager.get_status`: `self._jobs.get(job_id)` returns
the stored object itself — here, the reference into the heap — not a
copy of it. -/
def get_status (s : PyStore) (id : String) : Option Nat :=
  lookupRef s id

/-- Reading the object a reference points to, at the current heap. -/
def deref (s : PyStore) (r : Nat) : Option JobStatus :=
  s.cells[r]?

/-- Mirror of the locked update blocks of `_run_job`:
`status = self._jobs[job_id]; <mutate status's fields>;
self._jobs[job_id] = status`. The field assignments mutate the heap cell
the dict already references, so the cell is overwritten in place with
the transformed record (the re-insertion stores the same reference). -/
def update_in_place (s : PyStore) (id : String) (f : JobStatus → JobStatus) : PyStore :=
  match lookupRef s id with
  | none => s
  | some r =>
    match s.cells[r]? with
    | none => s
    | some v => { s with cells := s.cells.set r (f v) }

/-- `getElem?` after `set` at the same in-bounds index: helper used by
the store lemmas. -/
theorem getElem?_set_same (l : List JobStatus) (i : Nat) (a v : JobStatus)
    (h : l[i]? = some v) : (l.set i a)[i]? = some a := by
  induction l generalizing i with
  | nil => simp at h
  | cons b t ih =>
    cases i with
    | zero => simp [List.set]
    | succ j =>
      simp only [List.getElem?_cons_succ] at h
      simpa [List.set] using ih j h

/-- A concrete queued record for the store counterexample. -/
def recQ : JobStatus := initial_record "job-3" (build_command defaultSettings req0) 0

/-- A concrete one-job store holding `recQ` at heap cell 0. -/
def store0 : PyStore := ⟨[recQ], [("job-3", 0)]⟩

/-- C3, counterexample: `get_status` does not return an independent
snapshot copy. In the concrete store `store0`, `get_status` hands the
reader the reference to heap cell 0, whose value is the queued record;
after the supervisor's RUNNING update, the value observed through that
same previously returned reference has changed (to the running record) —
so a subsequent update by the supervisor does alter the value previously
returned to the reader. -/
theorem c3_counterexample_alias_not_snapshot :
    get_status store0 "job-3" = some 0 ∧
    deref store0 0 = some recQ ∧
    deref (update_in_place store0 "job-3" (running_update defaultSettings 1 "job-3" req0)) 0
      = some (running_update defaultSettings 1 "job-3" req0 recQ) ∧
    running_update defaultSettings 1 "job-3" req0 recQ ≠ recQ :=
  ⟨rfl, rfl, rfl, by decide⟩

/-- C3, amended: `get_status` returns a reference to the stored record
itself, not a copy, so a subsequent supervisor update *is* visible
through a previously returned reference; however, each update replaces
the referenced record atomically with the fully transformed value (all
field writes of one transition happen inside one locked section, and
`get_status` also takes the lock), so a reader observing the record at
these lock boundaries sees either the old record or the record with the
whole transition applied — never a partial mix. -/
theorem c3_amended_alias_and_atomicity (s : PyStore) (id : String)
    (f : JobStatus → JobStatus) (r : Nat) (v : JobStatus)
    (hg : get_status s id = some r) (hv : deref s r = some v) :
    get_status (update_in_place s id f) id = some r ∧
    deref (update_in_place s id f) r = some (f v) := by
  have hl : lookupRef s id = some r := hg
  have hv' : s.cells[r]? = some v := hv
  have he : update_in_place s id f = { s with cells := s.cells.set r (f v) } := by
    unfold update_in_place
    rw [hl]
    show (match s.cells[r]? with
      | none => s
      | some v => { s with cells := s.cells.set r (f v) }) = _
    rw [hv']
  constructor
  · show lookupRef (update_in_place s id f) id = some r
    rw [he]
    exact hl
  · show (update_in_place s id f).cells[r]? = some (f v)
    rw [he]
    exact getElem?_set_same s.cells r (f v) v hv'

/-- C3, witness for the amended theorem at the concrete store: the
previously returned reference observes exactly the fully updated
record. -/
theorem c3_amended_witness :
    get_status (update_in_place store0 "job-3"
      (running_update defaultSettings 1 "job-3" req0)) "job-3" = some 0 ∧
    deref (update_in_place store0 "job-3"
        (running_update defaultSettings 1 "job-3" req0)) 0
      = some (running_update defaultSettings 1 "job-3" req0 recQ) :=
  c3_amended_alias_and_atomicity store0 "job-3"
    (running_update defaultSettings 1 "job-3" req0) 0 recQ rfl rfl

/-- The sequence of in-place updates the supervisor thread applies to
the job's record, in order (none once the escaping `mkdir` exception has
killed the thread). -/
def supervisor_updates (env : RunEnv) (st : Settings) (t1 t2 : Nat) (job_id : String)
    (payload : JobRequest) : List (JobStatus → JobStatus) :=
  match env.mkdirFails with
  | some _ => []
  | none => [running_update st t1 job_id payload, final_update env t2]

/-- Mirror of `JobManager.create_job`'s construction of the returned
acknowledgement. `job_id`, `command` and `created_at` are read from
local variables, but `state=status.state` is read from the shared record
*after* `thread.start()`: `k` is the number of in-place updates the
concurrently running supervisor has already applied to that record at
the moment the acknowledgement is constructed. -/
def create_job_ack (st : Settings) (env : RunEnv) (job_id : String) (t0 t1 t2 : Nat)
    (payload : JobRequest) (k : Nat) : JobCreatedResponse :=
  let command := build_command st payload
  let rec0 := initial_record job_id command t0
  let cur := ((supervisor_updates env st t1 t2 job_id payload).take k).foldl
    (fun r f => f r) rec0
  { job_id := job_id, state := cur.state, command := command, created_at := t0 }

/-- C4, counterexample: the acknowledgement's state is *not* Queued
regardless of supervisor progress. `state=status.state` is evaluated
after `thread.start()` on the shared record object; if the supervisor
has already applied its RUNNING transition (`k = 1`) when the response
is constructed, the returned acknowledgement carries
`state = running`. -/
theorem c4_counterexample_ack_races_with_supervisor :
    (create_job_ack defaultSettings envOk "job-4" 0 1 2 req0 1).state = JobState.running ∧
    JobState.running ≠ JobState.queued :=
  ⟨rfl, by decide⟩

/-- C4, amended: `create_job` returns synchronously with the correct
`job_id`, `command` and `created_at` (these are read from local
variables), and its `state` field equals Queued precisely when the
acknowledgement is constructed before the supervisor task has applied
its first update (`k = 0`); if the supervisor has already progressed,
the acknowledgement can carry a later state, as the counterexample
shows. -/
theorem c4_amended_ack_fields (st : Settings) (env : RunEnv) (job_id : String)
    (t0 t1 t2 : Nat) (payload : JobRequest) (k : Nat) :
    (create_job_ack st env job_id t0 t1 t2 payload 0).state = JobState.queued ∧
    (create_job_ack st env job_id t0 t1 t2 payload k).job_id = job_id ∧
    (create_job_ack st env job_id t0 t1 t2 payload k).command = build_command st payload ∧
    (create_job_ack st env job_id t0 t1 t2 payload k).created_at = t0 :=
  ⟨rfl, rfl, rfl, rfl⟩

/-- C8: path resolution passes an absolute input through unchanged and
joins a relative input under the configured root directory
(`up2you_repo_path`); the inference script path is resolved through the
very same function, as are `data_dir` and `output_dir` in
`_build_command` (see `build_command_eq`). -/
theorem c8_resolve_path_spec (st : Settings) (s : String) :
    ((parsePath s).isAbs = true → st.resolve_path s = parsePath s) ∧
    ((parsePath s).isAbs = false →
      st.resolve_path s =
        ⟨st.up2you_repo_path.isAbs, st.up2you_repo_path.comps ++ (parsePath s).comps⟩) ∧
    (∀ name : Option String,
      st.inference_script_path name
        = st.resolve_path (pyOrStr name st.default_inference_script)) := by
  refine ⟨fun h => ?_, fun h => ?_, fun name => rfl⟩
  · simp [Settings.resolve_path, h]
  · simp [Settings.resolve_path, PyPath.div, h]

/-- C8, witness at concrete inputs: an absolute path passes through; a
relative one is joined under the root; the script path goes through
`resolve_path`. -/
theorem c8_resolve_path_witness :
    defaultSettings.resolve_path "/abs/dir" = parsePath "/abs/dir" ∧
    defaultSettings.resolve_path "rel/dir" =
      ⟨defaultSettings.up2you_repo_path.isAbs,
       defaultSettings.up2you_repo_path.comps ++ (parsePath "rel/dir").comps⟩ ∧
    defaultSettings.inference_script_path (some "run.py")
      = defaultSettings.resolve_path
          (pyOrStr (some "run.py") defaultSettings.default_inference_script) :=
  ⟨(c8_resolve_path_spec defaultSettings "/abs/dir").1 (by decide),
   (c8_resolve_path_spec defaultSettings "rel/dir").2.1 (by decide),
   (c8_resolve_path_spec defaultSettings "rel/dir").2.2 (some "run.py")⟩

/-- A request supplying the base-model override as the empty string. -/
def reqEmptyBase : JobRequest :=
  { data_dir := "d", output_dir := "o", base_model_path := some "" }

/-- A request supplying a non-empty base-model override. -/
def reqCustomBase : JobRequest :=
  { data_dir := "d", output_dir := "o", base_model_path := some "custom/model" }

/-- C9, counterexample: a supplied override is *not* always used. With
`base_model_path` supplied as the empty string, the built command
carries the configured default in the base-model position (index 7),
not the supplied value `""`. -/
theorem c9_counterexample_empty_override_ignored :
    reqEmptyBase.base_model_path = some "" ∧
    (build_command defaultSettings reqEmptyBase)[7]?
      = some "stabilityai/stable-diffusion-2-1-base" ∧
    (build_command defaultSettings reqEmptyBase)[7]? ≠ some "" := by
  refine ⟨rfl, rfl, by decide⟩

/-- C9, amended: a *non-empty* supplied override is used exactly in its
position of the built command (script at index 1, base model at index 7,
segmentation model at index 9), and when no override is supplied the
configured default is used; an empty-string override falls back to the
default (see C10). -/
theorem c9_amended_override_selection (st : Settings) (p : JobRequest) (s : String)
    (hs : s ≠ "") :
    (p.inference_script = some s →
      (build_command st p)[1]? = some (st.resolve_path s).render) ∧
    (p.inference_script = none →
      (build_command st p)[1]? = some (st.resolve_path st.default_inference_script).render) ∧
    (p.base_model_path = some s → (build_command st p)[7]? = some s) ∧
    (p.base_model_path = none →
      (build_command st p)[7]? = some st.default_base_model_path) ∧
    (p.segment_model_name = some s → (build_command st p)[9]? = some s) ∧
    (p.segment_model_name = none →
      (build_command st p)[9]? = some st.default_segment_model_name) := by
  refine ⟨fun h => ?_, fun h => ?_, fun h => ?_, fun h => ?_, fun h => ?_, fun h => ?_⟩ <;>
    simp [build_command_eq, Settings.inference_script_path, pyOrStr, h, hs]

/-- C9, witness at concrete inputs: a non-empty override lands in the
base-model position; without an override the default does. -/
theorem c9_amended_witness :
    (build_command defaultSettings reqCustomBase)[7]? = some "custom/model" ∧
    (build_command defaultSettings req0)[7]?
      = some defaultSettings.default_base_model_path :=
  ⟨(c9_amended_override_selection defaultSettings reqCustomBase "custom/model"
      (by decide)).2.2.1 rfl,
   (c9_amended_override_selection defaultSettings req0 "x" (by decide)).2.2.2.1 rfl⟩

/-- C10: supplying `base_model_path`, `segment_model_name` or
`inference_script` as the empty string yields exactly the command built
when the override is omitted — the `or`-based fallback silently discards
the empty-string override. -/
theorem c10_empty_override_same_as_omitted (st : Settings) (p : JobRequest) :
    build_command st { p with base_model_path := some "" }
      = build_command st { p with base_model_path := none } ∧
    build_command st { p with segment_model_name := some "" }
      = build_command st { p with segment_model_name := none } ∧
    build_command st { p with inference_script := some "" }
      = build_command st { p with inference_script := none } := by
  refine ⟨?_, ?_, ?_⟩ <;>
    simp [build_command_eq, pyOrStr, Settings.inference_script_path]

end DigitalTwin
